import Mathlib

/-!
Shallow embedding of the ZStack billing collector (`src/apps-script/Code.js`)
in Lean 4, together with theorems settling the frozen claims about it.

Modelling conventions:
* JavaScript numbers are embedded as `ℚ` for monetary/usage values (the
  operations exercised by the claims are exact in IEEE double) and as `Int`
  for epoch-millisecond timestamps (the script forces integers via
  `parseInt`).
* A JavaScript value that may be `undefined`/`null` is an `Option`; the
  JavaScript truthiness used by `x || y` chains (where `0`, `""`, `null`
  and `undefined` are falsy) is captured by the `qOr`/`iOr`/`strOr`
  helpers below.
* External services (the upstream HTTP API, BigQuery, the script-property
  store, the wall clock) are modelled as explicit inputs: the parsed
  spending payload, price/VM reference data, the destination table as a
  list of rows, and attempt oracles for the insert retry loop.  The
  `collected_at` wall-clock column is omitted from the row model (it is
  `new Date().toISOString()`, pure real time, and no claim mentions it).
-/

namespace ZB

/-- JS `Number(a || d)` for an optional numeric `a`: `0` is falsy. -/
def qOr (o : Option ℚ) (d : ℚ) : ℚ :=
  match o with
  | some q => if q = 0 then d else q
  | none => d

/-- JS `parseInt(a || d, 10)` for an optional integer `a`: `0` is falsy. -/
def iOr (o : Option Int) (d : Int) : Int :=
  match o with
  | some t => if t = 0 then d else t
  | none => d

/-- JS `s || null` for an optional string: `""` is falsy. -/
def strOr (o : Option String) : Option String :=
  match o with
  | some s => if s = "" then none else some s
  | none => none

/-- JS `a || b` on two optional strings, propagating string falsiness. -/
def strOr2 (a b : Option String) : Option String :=
  match strOr a with
  | some s => some s
  | none => strOr b

/-- JS truthiness filter on an optional rational: `0` behaves like absent. -/
def qTruthy (o : Option ℚ) : Option ℚ :=
  match o with
  | some q => if q = 0 then none else some q
  | none => none

/-- ASCII lower-casing of one character (model of JS `toLowerCase` /
regex `i` flag on the ASCII identifiers this script handles). -/
def asciiLower (c : Char) : Char :=
  if 65 ≤ c.toNat ∧ c.toNat ≤ 90 then Char.ofNat (c.toNat + 32) else c

/-- ASCII lower-casing of a string. -/
def lowerStr (s : String) : List Char := s.data.map asciiLower

/-- Model of the regex test `/Inventory$/i.test(k)` (Code.js line 181):
the key ends, case-insensitively, with `Inventory`. -/
def keyEndsWithInventory (k : String) : Bool :=
  "inventory".data.isSuffixOf (lowerStr k)

/-- Model of `resourceType.toLowerCase() === "vm"` (Code.js lines 209–213;
the guard `resourceType && typeof resourceType === "string"` is subsumed
because the empty string does not lower-case to `"vm"`). -/
def isVmType (resourceType : String) : Bool :=
  lowerStr resourceType == "vm".data

/-! ## Price entries and `findApplicablePrice` (Code.js lines 722–768) -/

/-- One price inventory returned by `GET /billings/prices`; optional
fields are those the script guards with truthiness checks. -/
structure PriceEntry where
  resourceName : String
  dateInLong : Option Int
  endDateInLong : Option Int
  timeUnit : Option String
  resourceUnit : Option String
  price : Option ℚ
deriving DecidableEq

/-- Model of `p.dateInLong ? Number(p.dateInLong) : 0` — also what
`best.dateInLong || 0` evaluates to in the comparison on line 759. -/
def priceStart (p : PriceEntry) : Int :=
  match p.dateInLong with
  | some d => d
  | none => 0

/-- The interval test of lines 756–758: `start <= ts && (end === null
|| ts < end)` where `end` is `null` when `endDateInLong` is absent or `0`
(falsy). -/
def priceCovers (p : PriceEntry) (ts : Int) : Bool :=
  priceStart p ≤ ts &&
    (match p.endDateInLong with
     | some e => if e = 0 then true else ts < e
     | none => true)

/-- The inner loop of lines 753–761: scan the candidate's price list,
keeping the covering entry with the strictly largest start. -/
def bestPriceIn (l : List PriceEntry) (ts : Int) : Option PriceEntry :=
  l.foldl
    (fun best p =>
      if priceCovers p ts then
        match best with
        | none => some p
        | some b => if priceStart p > priceStart b then some p else some b
      else best)
    none

/-- The fixed `invMap` of lines 736–740. -/
def invKeyMap (k : String) : Option String :=
  if k = "sizeInventory" then some "dataVolume"
  else if k = "cpuInventory" then some "cpu"
  else if k = "memoryInventory" then some "memory"
  else none

/-- Candidate resource names in lookup order (lines 732–741):
`resourceType`, then `spendingType` (each if non-empty), then the fixed
inventory-key mapping. -/
def priceCandidates (resourceType spendingType invKey : String) :
    List String :=
  (if resourceType ≠ "" then [resourceType] else []) ++
    (if spendingType ≠ "" then [spendingType] else []) ++
    (match invKeyMap invKey with
     | some m => [m]
     | none => [])

/-- Candidate loop of lines 744–766: filter prices by `resourceName`,
skip a candidate with no entries, and stop at the first candidate whose
filtered list holds a covering entry. -/
def findFromCandidates (arr : List PriceEntry) (ts : Int) :
    List String → Option PriceEntry
  | [] => none
  | c :: rest =>
    let list := arr.filter (fun p => p.resourceName == c)
    if list.isEmpty then findFromCandidates arr ts rest
    else
      match bestPriceIn list ts with
      | some b => some b
      | none => findFromCandidates arr ts rest

/-- Function `findApplicablePrice` (Code.js lines 722–768).  `prices = none`
models a null/non-array `pricesArray` (line 729). -/
def findApplicablePrice (prices : Option (List PriceEntry))
    (resourceType spendingType invKey : String) (ts : Int) :
    Option PriceEntry :=
  match prices with
  | none => none
  | some arr =>
    findFromCandidates arr ts (priceCandidates resourceType spendingType invKey)

/-! ## VM topology (`fetchVmMaps`, Code.js lines 679–716) -/

/-- One volume from a VM's `allVolumes` listing. -/
structure Volume where
  size : Option ℚ
deriving DecidableEq

/-- One VM record as built by `fetchVmMaps` lines 699–703:
`cpuNum := v.cpuNum || 0`, `memorySize := v.memorySize || 0`, plus the
per-VM `volumesMap`. -/
structure VmRec where
  cpuNum : Int
  memorySize : Int
  volumesMap : List (String × Volume)
deriving DecidableEq

/-! ## Raw spending payload (Code.js lines 165–186) -/

/-- One element of an `*Inventory` array on a detail. -/
structure InventoryUsage where
  startTime : Option Int
  endTime : Option Int
  spending : Option ℚ
  volumeSize : Option ℚ
  volumeSizeInBytes : Option ℚ
deriving DecidableEq

/-- A dynamic field of a detail object: either an array of inventory
usages or some non-array value — only array-valued fields whose key ends
in `Inventory` survive the filter on lines 180–182. -/
inductive FieldVal where
  | arr (elems : List InventoryUsage)
  | nonArray
deriving DecidableEq

/-- One detail of a spending entry.  The scalar properties the script
reads are explicit; every other own property is in `fields` (keyed,
insertion-ordered, as `Object.keys` enumerates them).  `type = ""`
models an absent `detail.type` (the script only uses it through
`detail.type || spendingType || ""`). -/
structure Detail where
  resourceUuid : String
  resourceName : String
  type : String
  spending : Option ℚ
  fields : List (String × FieldVal)
deriving DecidableEq

/-- One entry of the payload's `spending` array. -/
structure SpendingEntry where
  spendingType : String
  dateStart : Option Int
  dateEnd : Option Int
  spending : Option ℚ
  details : List Detail
deriving DecidableEq

/-- The inventory-array fields of a detail, in key order — the
`inventoryKeys` filter of Code.js lines 180–182 paired with the arrays
they hold (`detail[invKey] || []`, line 186). -/
def inventoryFields (d : Detail) : List (String × List InventoryUsage) :=
  d.fields.filterMap
    (fun kv =>
      match kv with
      | (k, .arr a) => if keyEndsWithInventory k then some (k, a) else none
      | (_, .nonArray) => none)

/-! ## Normalized output rows -/

/-- One destination-table row (the `json` object built at Code.js lines
294–312 and 338–357).  `raw_json = true` marks fallback rows, which embed
the stringified detail; `collected_at` (wall clock) is omitted. -/
structure BillingRow where
  billing_date : String
  account_id : String
  resource_id : String
  resource_name : String
  spending_type : String
  resource_type : String
  cpu_core : Option Int
  memory : Option Int
  inventory_type : Option String
  resource_used : Option ℚ
  resource_unit : Option String
  cost : ℚ
  date_start_ms : Int
  date_end_ms : Int
  raw_json : Bool
deriving DecidableEq

/-- The per-run context threaded through the normalizer: configuration
values plus the reference data fetched (best-effort) at Code.js lines
114–128 and the window bounds of lines 76–83. -/
structure NormCtx where
  billingDate : String
  accountUuid : String
  pricesByTable : Option (List PriceEntry)
  vmMap : List (String × VmRec)
  volumeToVm : List (String × String)
  dateStartMs : Int
  dateEndMs : Int
deriving DecidableEq

/-- Lines 208–217: the VM uuid owning a resource — the resource itself
when its type lower-cases to `"vm"`, otherwise the volume→VM index. -/
def vmUuidFor (ctx : NormCtx) (resourceType resourceId : String) :
    Option String :=
  if isVmType resourceType then some resourceId
  else ctx.volumeToVm.lookup resourceId

/-- Lines 218–228: resolve the VM record and its cpu/memory columns
(`vm.cpuNum ? vm.cpuNum : null`, `0` falsy). -/
def cpuMemFor (ctx : NormCtx) (resourceType resourceId : String) :
    Option Int × Option Int :=
  let vmForResource :=
    (vmUuidFor ctx resourceType resourceId).bind
      (fun u => ctx.vmMap.lookup u)
  match vmForResource with
  | some vm =>
    ((if vm.cpuNum = 0 then none else some vm.cpuNum),
     (if vm.memorySize = 0 then none else some vm.memorySize))
  | none => (none, none)

/-- The `cost / price` fallback of lines 264–267 / 271–274 / 278–281:
`priceEntry.price ? invCost / Number(priceEntry.price) : null`, with the
entry's declared `resourceUnit || null`. -/
def priceFallback (pe : PriceEntry) (invCost : ℚ) :
    Option ℚ × Option String :=
  (match pe.price with
   | some p => if p = 0 then none else some (invCost / p)
   | none => none,
   strOr pe.resourceUnit)

/-- The size-in-bytes resolution of lines 242–257: the element's own
`volumeSize || volumeSizeInBytes`, then the volume→VM→volumesMap chain;
the result is `null` when every source is falsy. -/
def sizeBytesFor (ctx : NormCtx) (resourceId : String)
    (inv : InventoryUsage) : Option ℚ :=
  match qTruthy inv.volumeSize with
  | some s => some s
  | none =>
    match qTruthy inv.volumeSizeInBytes with
    | some s => some s
    | none =>
      match ctx.volumeToVm.lookup resourceId with
      | some vmUuid =>
        match ctx.vmMap.lookup vmUuid with
        | some vm =>
          match vm.volumesMap.lookup resourceId with
          | some vol => qTruthy vol.size
          | none => none
        | none => none
      | none => none

/-- The usage/unit computation of lines 229–292, given a matched price
entry: per-hour CPU multiplies hours by the VM's cpu count (line 237
looks the VM up directly by `resourceId`, default 1), per-hour GIGABYTE
converts a resolved byte size to GB-hours, and everything else falls
back to `cost / price`. -/
def computeUsage (ctx : NormCtx) (pe : PriceEntry) (resourceId : String)
    (invStart invEnd : Int) (invCost : ℚ) (inv : InventoryUsage) :
    Option ℚ × Option String :=
  if strOr pe.timeUnit = some "HOURS" then
    let hours : ℚ := ((invEnd - invStart : Int) : ℚ) / 3600000
    if pe.resourceName = "cpu" then
      let cpuCount : ℚ :=
        match ctx.vmMap.lookup resourceId with
        | some vm => if vm.cpuNum = 0 then 1 else (vm.cpuNum : ℚ)
        | none => 1
      (some (hours * cpuCount), some "vCPU-hour")
    else if strOr pe.resourceUnit = some "GIGABYTE" then
      match sizeBytesFor ctx resourceId inv with
      | some sizeBytes =>
        (some (hours * (sizeBytes / (1024 * 1024 * 1024))), some "GB-hour")
      | none => priceFallback pe invCost
    else priceFallback pe invCost
  else priceFallback pe invCost

/-- One output row for one inventory-array element (lines 187–313):
times fall back to the entry-level bounds, the cost is the element's own
`spending`, the price is looked up at the element's start, and a missing
price leaves `resource_used`/`resource_unit` null. -/
def normalizeInvRow (ctx : NormCtx) (spendingType resourceId resourceName
    resourceType : String) (dateStart dateEnd : Int) (invKey : String)
    (inv : InventoryUsage) : BillingRow :=
  let invStart := iOr inv.startTime dateStart
  let invEnd := iOr inv.endTime dateEnd
  let invCost := qOr inv.spending 0
  let priceEntry :=
    findApplicablePrice ctx.pricesByTable resourceType spendingType invKey
      invStart
  let cm := cpuMemFor ctx resourceType resourceId
  let used :=
    match priceEntry with
    | some pe => computeUsage ctx pe resourceId invStart invEnd invCost inv
    | none => (none, none)
  { billing_date := ctx.billingDate
    account_id := ctx.accountUuid
    resource_id := resourceId
    resource_name := resourceName
    spending_type := spendingType
    resource_type := resourceType
    cpu_core := cm.1
    memory := cm.2
    inventory_type := some invKey
    resource_used := used.1
    resource_unit := used.2
    cost := invCost
    date_start_ms := invStart
    date_end_ms := invEnd
    raw_json := false }

/-- The fallback row of lines 316–359 for a detail with no inventory
arrays: cost is `detail.spending || sp.spending || 0`, usage columns are
null, and the raw detail JSON is attached. -/
def fallbackRow (ctx : NormCtx) (spendingType resourceId resourceName
    resourceType : String) (dateStart dateEnd : Int)
    (spSpending : Option ℚ) (detail : Detail) : BillingRow :=
  let cm := cpuMemFor ctx resourceType resourceId
  { billing_date := ctx.billingDate
    account_id := ctx.accountUuid
    resource_id := resourceId
    resource_name := resourceName
    spending_type := spendingType
    resource_type := resourceType
    cpu_core := cm.1
    memory := cm.2
    inventory_type := none
    resource_used := none
    resource_unit := none
    cost := qOr detail.spending (qOr spSpending 0)
    date_start_ms := dateStart
    date_end_ms := dateEnd
    raw_json := true }

/-- Rows for one detail (lines 174–360): one per inventory-array element
when any inventory field exists, else exactly one fallback row. -/
def normalizeDetail (ctx : NormCtx) (spendingType : String)
    (dateStart dateEnd : Int) (spSpending : Option ℚ) (detail : Detail) :
    List BillingRow :=
  let resourceId := detail.resourceUuid
  let resourceName := detail.resourceName
  let resourceType := if detail.type = "" then spendingType else detail.type
  let invFs := inventoryFields detail
  if invFs.isEmpty then
    [fallbackRow ctx spendingType resourceId resourceName resourceType
      dateStart dateEnd spSpending detail]
  else
    invFs.flatMap
      (fun kv =>
        kv.2.map
          (normalizeInvRow ctx spendingType resourceId resourceName
            resourceType dateStart dateEnd kv.1))

/-- Rows for one spending entry (lines 167–361): entry-level bounds fall
back to the computed window bounds (`0` falsy via `parseInt(x || d)`). -/
def normalizeEntry (ctx : NormCtx) (sp : SpendingEntry) : List BillingRow :=
  let dateStart := iOr sp.dateStart ctx.dateStartMs
  let dateEnd := iOr sp.dateEnd ctx.dateEndMs
  sp.details.flatMap
    (normalizeDetail ctx sp.spendingType dateStart dateEnd sp.spending)

/-- The full `rowsBatch` built by the normalizer loop over
`payload.spending || []`. -/
def normalizeSpending (ctx : NormCtx) (spending : List SpendingEntry) :
    List BillingRow :=
  spending.flatMap (normalizeEntry ctx)

/-! ## Warehouse loader (Code.js lines 447–487, 511–583) -/

/-- An observable warehouse side effect of one run. -/
inductive WarehouseAction where
  | deleteDate (date : String)
  | insertRows (rows : List BillingRow)
deriving DecidableEq

/-- Function `deleteRowsForDate` (lines 466–487): the DELETE job removes every
row whose `billing_date` equals the target date. -/
def deleteRowsForDate (table : List BillingRow) (date : String) :
    List BillingRow :=
  table.filter (fun r => r.billing_date ≠ date)

/-- Function `replaceRowsForDate` (lines 450–461) on the destination table state:
the delete is attempted first (best-effort — `deleteOk = false` models a
caught delete failure, after which the old rows survive), then the new
batch is streamed in (BigQuery `insertAll` appends).  Returns the new
table and the attempted actions. -/
def replaceRowsForDate (deleteOk : Bool) (table : List BillingRow)
    (date : String) (rows : List BillingRow) :
    List BillingRow × List WarehouseAction :=
  let t1 := if deleteOk then deleteRowsForDate table date else table
  (t1 ++ rows, [.deleteDate date, .insertRows rows])

/-- The `{status: "ok", date}` value returned at Code.js line 367. -/
structure CollectResult where
  status : String
  date : String
deriving DecidableEq

/-- The tail of `collectBillingForDate` (lines 363–367): replace the
date's partition only when the normalized batch is non-empty, then
report success.  The upstream response is fixed as the already-parsed
`spending` array; the table is threaded explicitly. -/
def collectStep (deleteOk : Bool) (ctx : NormCtx)
    (spending : List SpendingEntry) (table : List BillingRow) :
    List BillingRow × List WarehouseAction × CollectResult :=
  let rowsBatch := normalizeSpending ctx spending
  if rowsBatch.isEmpty then
    (table, [], { status := "ok", date := ctx.billingDate })
  else
    let ra := replaceRowsForDate deleteOk table ctx.billingDate rowsBatch
    (ra.1, ra.2, { status := "ok", date := ctx.billingDate })

/-! ## `insertRowsToBQ` retry loop (Code.js lines 511–583) -/

/-- What one `BigQuery.Tabledata.insertAll` attempt can observably do. -/
inductive AttemptResult where
  | okNoErrors
  | rowErrors (detail : String)
  | thrownErr (msg : String)
deriving DecidableEq

/-- The observable outcome of `insertRowsToBQ`: a successful return or a
raised error, with the number of insert attempts actually made. -/
inductive InsertOutcome where
  | success (attempts : Nat)
  | raised (err : Option String) (attempts : Nat)
deriving DecidableEq

/-- Case-insensitive substring test on the lowered character list. -/
def containsSubCI (s pat : String) : Bool :=
  (lowerStr s).tails.any (fun t => pat.data.isPrefixOf t)

/-- The transient-error classification of lines 554–560.  The five
case-insensitive regexes — `/no schema/`, `/Table .* has no schema/`,
`/destination table has no schema/`, `/Table .* not found/`,
`/not found/` — are jointly equivalent to the two substring tests
`"no schema"` and `"not found"`, each of which subsumes its longer
variants. -/
def isTransientMsg (msg : String) : Bool :=
  containsSubCI msg "no schema" || containsSubCI msg "not found"

/-- The error message built from row-level insert errors (line 531). -/
def rowErrMsg (detail : String) : String :=
  "BigQuery insertAll returned errors: " ++ detail

/-- The `while (attempt < maxRetries)` loop of lines 516–580, driven by
an oracle giving each attempt's result.  `fuel` counts the remaining
loop iterations (`maxRetries - attempt`); exhausting it models falling
out of the loop and throwing `lastErr` (line 582). -/
def insertGo (oracle : Nat → AttemptResult) (maxRetries : Nat) :
    Nat → Nat → Option String → InsertOutcome
  | 0, attempt, lastErr => .raised lastErr attempt
  | fuel + 1, attempt, lastErr =>
    let a := attempt + 1
    match oracle a with
    | .okNoErrors => .success a
    | .rowErrors detail =>
      let le := some (rowErrMsg detail)
      if a ≥ maxRetries then .raised le a
      else insertGo oracle maxRetries fuel a le
    | .thrownErr msg =>
      if isTransientMsg msg then
        if a ≥ maxRetries then .raised (some msg) a
        else insertGo oracle maxRetries fuel a (some msg)
      else .raised (some msg) a

/-- Function `insertRowsToBQ` (lines 511–583) with `maxRetries = 3`. -/
def insertRowsToBQ (oracle : Nat → AttemptResult) : InsertOutcome :=
  insertGo oracle 3 3 0 none

/-- Number of insert attempts an outcome reports. -/
def attemptsOf : InsertOutcome → Nat
  | .success a => a
  | .raised _ a => a

/-! ## Credential resolution (Code.js lines 24–112, 891–1034) -/

/-- The script-property configuration read at lines 29–42; `""` models
an unset property (`props.getProperty(...) || ""`). -/
structure Config where
  apiUrl : String
  apiKey : String
  accessKey : String
  accessSecret : String
  username : String
  password : String
  projectId : String
  datasetId : String
  tableId : String
  accountUuid : String
deriving DecidableEq

/-- The observable result of the login HTTP exchange inside
`loginZstack`: an HTTP status ≥ 400, or a parsed body from which a
session token and an account uuid may or may not have been extracted
(the prioritized lookup paths plus the recursive 32-hex scan of lines
960–1000 are summarized by their outcome). -/
inductive LoginHttp where
  | httpError
  | okBody (token : Option String) (acct : Option String)
deriving DecidableEq

/-- The value `loginZstack` returns to its caller (lines 1025–1029):
`token || null`, `accountUuid || null`, `uuid := token || accountUuid
|| null`. -/
structure LoginRes where
  token : Option String
  accountUuid : Option String
  uuid : Option String
deriving DecidableEq

/-- Function `loginZstack` on a cache miss (lines 952–1033): an HTTP error logs
and returns `null` (line 956); otherwise the parsed token/account pair
is packaged.  The in-memory and property token caches are bypassed here
(a fresh run with no cached token), matching the failure scenarios the
claims describe. -/
def loginZstack (http : LoginHttp) : Option LoginRes :=
  match http with
  | .httpError => none
  | .okBody t a =>
    some { token := strOr t, accountUuid := strOr a, uuid := strOr2 t a }

/-- The `headers` object built at lines 99–112. -/
inductive AuthHeader where
  | bearer (key : String)
  | accessPair (key secret : String)
  | oauth (token : String)
  | basic (user pass : String)
  | noAuth
deriving DecidableEq

/-- What the auth/config phase of `collectBillingForDate` resolves. -/
structure AuthResolved where
  headers : AuthHeader
  accountUuid : String
  sessionToken : String
deriving DecidableEq

/-- The error thrown at Code.js lines 62–64 when the property check of
lines 55–61 fails. -/
def missingPropsMsg : String :=
  "Missing script properties. Set ZSTACK_API_URL and either ZSTACK_API_KEY or (ZSTACK_ACCESS_KEY + ZSTACK_ACCESS_SECRET), and BQ_PROJECT, BQ_DATASET, BQ_TABLE"

/-- The credential/config phase of `collectBillingForDate` (lines
44–112, including the account check of lines 92–94): run the session
login when username+password are set, fold its token/uuid into
`sessionToken`/`accountUuid` (lines 45–53), throw on missing properties
(lines 55–65) or missing account uuid (lines 92–94), then build the auth
header with the Basic fallback of lines 105–111. -/
def resolveAuth (cfg : Config) (http : LoginHttp) :
    Except String AuthResolved :=
  let login : Option LoginRes :=
    if cfg.username ≠ "" ∧ cfg.password ≠ "" then loginZstack http else none
  let st : String :=
    match login with
    | some lr =>
      match strOr2 lr.token lr.uuid with
      | some s => s
      | none => ""
    | none => ""
  let au : String :=
    match login with
    | some lr =>
      let au1 :=
        match strOr lr.accountUuid with
        | some a => if cfg.accountUuid = "" then a else cfg.accountUuid
        | none => cfg.accountUuid
      match strOr lr.uuid with
      | some u => if au1 = "" then u else au1
      | none => au1
    | none => cfg.accountUuid
  if cfg.apiUrl = "" ∨
      ¬(cfg.apiKey ≠ "" ∨ (cfg.accessKey ≠ "" ∧ cfg.accessSecret ≠ "") ∨
        (cfg.username ≠ "" ∧ cfg.password ≠ "")) ∨
      cfg.projectId = "" ∨ cfg.datasetId = "" ∨ cfg.tableId = "" then
    .error missingPropsMsg
  else if au = "" then
    .error "Missing ZSTACK_ACCOUNT_UUID in Script Properties"
  else
    let headers : AuthHeader :=
      if cfg.apiKey ≠ "" then .bearer cfg.apiKey
      else if cfg.accessKey ≠ "" ∧ cfg.accessSecret ≠ "" then
        .accessPair cfg.accessKey cfg.accessSecret
      else if cfg.username ≠ "" ∧ cfg.password ≠ "" then
        (if st ≠ "" then .oauth st else .basic cfg.username cfg.password)
      else .noAuth
    .ok { headers := headers, accountUuid := au, sessionToken := st }

/-! ## Month iteration (`collectBillingForMonth`, Code.js lines 375–410) -/

/-- JS `new Date(y, m, 0).getDate()` for `m` in 1..12: the number of
days of calendar month `m` of year `y` (Gregorian rules). -/
def isLeapYear (y : Nat) : Bool :=
  (y % 4 == 0 && y % 100 != 0) || y % 400 == 0

/-- Days in a calendar month. -/
def daysInMonth (y m : Nat) : Nat :=
  if m = 2 then (if isLeapYear y then 29 else 28)
  else if m = 4 ∨ m = 6 ∨ m = 9 ∨ m = 11 then 30
  else 31

/-- The `^\d{4}-\d{2}$` validation plus `Number` conversion of lines
376–384. -/
def parseYearMonth (s : String) : Option (Nat × Nat) :=
  match s.data with
  | [a, b, c, d, dash, e, f] =>
    if a.isDigit ∧ b.isDigit ∧ c.isDigit ∧ d.isDigit ∧ dash = '-' ∧
        e.isDigit ∧ f.isDigit then
      some (1000 * (a.toNat - 48) + 100 * (b.toNat - 48) +
              10 * (c.toNat - 48) + (d.toNat - 48),
            10 * (e.toNat - 48) + (f.toNat - 48))
    else none
  | _ => none

/-- The zero-padding of lines 391–392. -/
def pad2 (n : Nat) : String :=
  if n < 10 then "0" ++ toString n else toString n

/-- The per-day date string of line 393. -/
def monthDateStr (y m d : Nat) : String :=
  toString y ++ "-" ++ pad2 m ++ "-" ++ pad2 d

/-- One per-day outcome pushed at lines 397/404. -/
structure DayOutcome where
  date : String
  ok : Bool
  res : Option String
  err : Option String
deriving DecidableEq

/-- Boolean success test on a per-day run result. -/
def runnerOk (r : Except String String) : Bool :=
  match r with
  | .ok _ => true
  | .error _ => false

/-- Lines 395–405: run one day, catching a thrown error into that day's
outcome entry. -/
def dayOutcome (runner : String → Except String String)
    (dateStr : String) : DayOutcome :=
  match runner dateStr with
  | .ok r => { date := dateStr, ok := true, res := some r, err := none }
  | .error e => { date := dateStr, ok := false, res := none, err := some e }

/-- Function `collectBillingForMonth` (lines 375–410), with the per-date pipeline
abstracted as `runner`.  Validation failures throw; otherwise every day
`1..lastDay` is processed in order and its outcome collected. -/
def collectBillingForMonth (runner : String → Except String String)
    (yearMonth : String) : Except String (List DayOutcome) :=
  match parseYearMonth yearMonth with
  | none => .error "yearMonth must be provided in YYYY-MM format"
  | some (y, m) =>
    if m < 1 ∨ m > 12 then .error "Invalid yearMonth"
    else
      let lastDay := daysInMonth y m
      .ok ((List.range lastDay).map
        (fun i => dayOutcome runner (monthDateStr y m (i + 1))))

/-! ## Billing window (Code.js lines 76–90) -/

/-- Days from 1970-01-01 to the civil date `y-m-d` (model of the
platform's proleptic-Gregorian ISO-8601 date handling). -/
def daysSinceEpoch (y m d : Nat) : Nat :=
  ((List.range (y - 1970)).map
      (fun i => if isLeapYear (1970 + i) then 366 else 365)).sum +
    ((List.range (m - 1)).map (fun j => daysInMonth y (j + 1))).sum +
    (d - 1)

/-- Model of `new Date(dateStr + "T<time>+07:00").getTime()` for a valid
`YYYY-MM-DD` string: epoch milliseconds of the given civil date at the
given time of day in UTC+7 (25,200,000 ms offset).  The subsequent
`parseInt(..., 10)` at lines 82–83 is the identity on these integers. -/
def parseJakartaMs (y m d : Nat) (timeOfDayMs : Nat) : Int :=
  (daysSinceEpoch y m d : Int) * 86400000 + (timeOfDayMs : Int) - 25200000

/-- Value `dateStartMs` (lines 77, 79, 82): midnight `00:00:00.000+07:00`. -/
def dateStartMs (y m d : Nat) : Int := parseJakartaMs y m d 0

/-- Value `dateEndMs` (lines 78, 80, 83): `23:59:59.999+07:00`. -/
def dateEndMs (y m d : Nat) : Int := parseJakartaMs y m d 86399999

/-! ## Concrete fixtures used by witnesses and counterexamples -/

/-- A price list holding one entry per lookup candidate, all effective
from 1 with no end: `rtypePrice` for a resource type, `stypePrice` for a
spending type, `dvPrice` for the `sizeInventory → dataVolume` mapping. -/
def rtypePrice : PriceEntry := ⟨"rtype", some 1, none, none, none, none⟩

/-- Price entry matching the spending-type candidate. -/
def stypePrice : PriceEntry := ⟨"stype", some 1, none, none, none, none⟩

/-- Price entry matching the mapped `dataVolume` candidate. -/
def dvPrice : PriceEntry := ⟨"dataVolume", some 1, none, none, none, none⟩

/-- The three candidate prices bundled as a fetched price table. -/
def threeCandidatePrices : Option (List PriceEntry) :=
  some [dvPrice, stypePrice, rtypePrice]

/-- A per-hour cpu price effective from 0 with no end (unit price 1,
standing in for $0.01 — the usage computation never reads it on the cpu
path). -/
def cpuHourPrice : PriceEntry := ⟨"cpu", some 0, none, some "HOURS", none, some 1⟩

/-- Normalizer context for the witnesses: the cpu price above and one
2-vCPU VM keyed `vm-1`. -/
def wCtx : NormCtx :=
  { billingDate := "2025-01-02", accountUuid := "acct"
    pricesByTable := some [cpuHourPrice]
    vmMap := [("vm-1", ⟨2, 0, []⟩)], volumeToVm := []
    dateStartMs := 0, dateEndMs := 86399999 }

/-- Normalizer context with no price table fetched. -/
def wCtxNoPrices : NormCtx :=
  { billingDate := "2025-01-02", accountUuid := "acct"
    pricesByTable := none, vmMap := [], volumeToVm := []
    dateStartMs := 0, dateEndMs := 86399999 }

/-- A 2-hour cpu inventory usage element costing 0.04 (4/100). -/
def wInv : InventoryUsage := ⟨some 1000, some 7201000, some (4/100), none, none⟩

/-- A detail with a cpu-inventory and a size-inventory array (one element
each) plus a non-array field. -/
def wDetail : Detail :=
  { resourceUuid := "r1", resourceName := "n1", type := "vm"
    spending := some 3
    fields := [("cpuInventory", .arr [wInv]), ("other", .nonArray),
               ("sizeInventory", .arr [⟨none, none, some 1, some 5, none⟩])] }

/-- A one-entry spending payload wrapping `wDetail`. -/
def wSpending : List SpendingEntry :=
  [{ spendingType := "VM", dateStart := none, dateEnd := none,
     spending := some 9, details := [wDetail] }]

/-- Session-login configuration: username/password credentials, complete
BigQuery settings, account uuid present. -/
def sessionCfg : Config :=
  ⟨"http://api", "", "", "", "admin", "pw", "proj", "ds", "tbl", "acct"⟩

/-- Configuration with complete API/BigQuery settings but no credential
set at all. -/
def noCredCfg : Config :=
  ⟨"http://api", "", "", "", "", "", "proj", "ds", "tbl", "acct"⟩

/-- A per-date runner that fails only on 2025-02-15. -/
def runner15 : String → Except String String :=
  fun s => if s = "2025-02-15" then .error "simulated failure" else .ok "ok"

/-- The 28 day strings of February 2025 in order. -/
def feb2025Dates : List String :=
  (List.range 28).map (fun i => monthDateStr 2025 2 (i + 1))

/-- A pre-existing destination row for the same date, used to observe
the frame condition of a run that produces no records. -/
def oldRow : BillingRow :=
  { billing_date := "2025-01-02", account_id := "acct", resource_id := "r0"
    resource_name := "n0", spending_type := "VM", resource_type := "vm"
    cpu_core := none, memory := none, inventory_type := none
    resource_used := none, resource_unit := none, cost := 7
    date_start_ms := 0, date_end_ms := 1, raw_json := true }

/-- A spending payload whose single entry carries no details. -/
def noDetailSpending : List SpendingEntry :=
  [{ spendingType := "VM", dateStart := none, dateEnd := none,
     spending := some 9, details := [] }]

/-! ## Theorems -/

/-- C5: an inventory usage element with no matching price entry is still
emitted, with `resource_used` and `resource_unit` both null — never `0`
(the normalizer is a total function, so no exception arises either). -/
theorem C5_no_price_yields_null_usage (ctx : NormCtx)
    (spendingType resourceId resourceName resourceType : String)
    (dateStart dateEnd : Int) (invKey : String) (inv : InventoryUsage)
    (hnone : findApplicablePrice ctx.pricesByTable resourceType spendingType
        invKey (iOr inv.startTime dateStart) = none) :
    (normalizeInvRow ctx spendingType resourceId resourceName resourceType
        dateStart dateEnd invKey inv).resource_used = none ∧
    (normalizeInvRow ctx spendingType resourceId resourceName resourceType
        dateStart dateEnd invKey inv).resource_unit = none := by
  simp [normalizeInvRow, hnone]

/-- C5 witness: with no fetched price table, the emitted row's usage
columns are null. -/
theorem C5_no_price_witness :
    (normalizeInvRow wCtxNoPrices "VM" "r1" "n1" "vm" 0 86399999
        "cpuInventory" wInv).resource_used = none ∧
    (normalizeInvRow wCtxNoPrices "VM" "r1" "n1" "vm" 0 86399999
        "cpuInventory" wInv).resource_unit = none :=
  C5_no_price_yields_null_usage wCtxNoPrices "VM" "r1" "n1" "vm" 0 86399999
    "cpuInventory" wInv rfl

/-- C4: when the matched price entry is per-hour with resource name
`cpu`, the VM record looked up by the resource id has 2 CPUs, and the
element spans 7,200,000 ms, the emitted row carries
`resource_used = 4`, `resource_unit = "vCPU-hour"`, and a `cost` equal
to the element's upstream spending value, untouched by the usage
computation. -/
theorem C4_cpu_hours_usage (ctx : NormCtx)
    (spendingType resourceId resourceName resourceType : String)
    (dateStart dateEnd : Int) (invKey : String) (inv : InventoryUsage)
    (pe : PriceEntry) (vm : VmRec) (c : ℚ)
    (hfind : findApplicablePrice ctx.pricesByTable resourceType spendingType
        invKey (iOr inv.startTime dateStart) = some pe)
    (htu : pe.timeUnit = some "HOURS")
    (hrn : pe.resourceName = "cpu")
    (hvm : ctx.vmMap.lookup resourceId = some vm)
    (hcpu : vm.cpuNum = 2)
    (hdur : iOr inv.endTime dateEnd - iOr inv.startTime dateStart = 7200000)
    (hsp : inv.spending = some c) (hc : c ≠ 0) :
    (normalizeInvRow ctx spendingType resourceId resourceName resourceType
        dateStart dateEnd invKey inv).resource_used = some 4 ∧
    (normalizeInvRow ctx spendingType resourceId resourceName resourceType
        dateStart dateEnd invKey inv).resource_unit = some "vCPU-hour" ∧
    (normalizeInvRow ctx spendingType resourceId resourceName resourceType
        dateStart dateEnd invKey inv).cost = c := by
  have hstu : strOr pe.timeUnit = some "HOURS" := by
    rw [htu]; simp [strOr]
  simp only [normalizeInvRow, hfind, computeUsage, hstu, hrn, hvm, hcpu,
    qOr, hsp, if_neg hc]
  rw [hdur]
  norm_num

/-- C4 witness: a 2-vCPU VM, a per-hour cpu price, and a 2-hour element
costing 4/100 yield usage 4 vCPU-hours with the cost passed through. -/
theorem C4_cpu_hours_witness :
    (normalizeInvRow wCtx "VM" "vm-1" "n1" "vm" 0 86399999
        "cpuInventory" wInv).resource_used = some 4 ∧
    (normalizeInvRow wCtx "VM" "vm-1" "n1" "vm" 0 86399999
        "cpuInventory" wInv).resource_unit = some "vCPU-hour" ∧
    (normalizeInvRow wCtx "VM" "vm-1" "n1" "vm" 0 86399999
        "cpuInventory" wInv).cost = 4 / 100 :=
  C4_cpu_hours_usage wCtx "VM" "vm-1" "n1" "vm" 0 86399999 "cpuInventory"
    wInv cpuHourPrice ⟨2, 0, []⟩ (4 / 100) rfl rfl rfl rfl rfl (by decide)
    rfl (by norm_num)

/-- C3: price matching.  (1) A lone `cpu` entry effective from `t0` with
no effective end matches a usage element starting at `t0 + 1000`
(reached through the `cpuInventory → cpu` mapping).  (2) Of two entries
with the same resource name both covering the timestamp, the one with
the strictly later effective start wins, in either storage order.
(3) Candidates are consulted in the order resource type, spending type,
mapped inventory key — the first candidate with a match stops the
search — and the fixed inventory-key mapping is `sizeInventory →
dataVolume`, `cpuInventory → cpu`, `memoryInventory → memory`. -/
theorem C3_price_matching :
    (∀ (e : PriceEntry) (t0 : Int), e.resourceName = "cpu" →
        e.dateInLong = some t0 → e.endDateInLong = none →
        findApplicablePrice (some [e]) "" "" "cpuInventory" (t0 + 1000) =
          some e) ∧
    (∀ (p q : PriceEntry) (c : String) (ts : Int), c ≠ "" →
        p.resourceName = c → q.resourceName = c →
        priceCovers p ts = true → priceCovers q ts = true →
        priceStart p < priceStart q →
        findApplicablePrice (some [p, q]) c "" "" ts = some q ∧
        findApplicablePrice (some [q, p]) c "" "" ts = some q) ∧
    (findApplicablePrice threeCandidatePrices "rtype" "stype"
        "sizeInventory" 100 = some rtypePrice ∧
      findApplicablePrice threeCandidatePrices "" "stype"
        "sizeInventory" 100 = some stypePrice ∧
      findApplicablePrice threeCandidatePrices "" ""
        "sizeInventory" 100 = some dvPrice ∧
      invKeyMap "sizeInventory" = some "dataVolume" ∧
      invKeyMap "cpuInventory" = some "cpu" ∧
      invKeyMap "memoryInventory" = some "memory") := by
  refine ⟨?_, ?_, by decide⟩
  · intro e t0 hrn hstart hend
    have hcov : priceCovers e (t0 + 1000) = true := by
      simp [priceCovers, priceStart, hstart, hend]
    simp [findApplicablePrice, priceCandidates, invKeyMap, findFromCandidates,
      bestPriceIn, hrn, hcov]
  · intro p q c ts hc hp hq hcp hcq hlt
    have hbeqp : (p.resourceName == c) = true := by simp [hp]
    have hbeqq : (q.resourceName == c) = true := by simp [hq]
    have hgt : priceStart q > priceStart p := hlt
    have hngt : ¬ priceStart p > priceStart q := by omega
    constructor <;>
      simp [findApplicablePrice, priceCandidates, hc, findFromCandidates,
        hbeqp, hbeqq, bestPriceIn, hcp, hcq, hgt, hngt]

/-- C3 witness: the general clauses instantiated — a cpu entry from 500
matched at 1500, and of two cpu entries from 100 and 200, the 200 one
wins at 300 in both orders. -/
theorem C3_price_matching_witness :
    findApplicablePrice (some [cpuHourPrice]) "" "" "cpuInventory"
        (0 + 1000) = some cpuHourPrice ∧
    findApplicablePrice (some [⟨"cpu", some 100, none, none, none, none⟩,
        ⟨"cpu", some 200, none, none, none, none⟩]) "cpu" "" "" 300 =
      some ⟨"cpu", some 200, none, none, none, none⟩ :=
  ⟨C3_price_matching.1 cpuHourPrice 0 rfl rfl rfl,
    (C3_price_matching.2.1 ⟨"cpu", some 100, none, none, none, none⟩
      ⟨"cpu", some 200, none, none, none, none⟩ "cpu" 300 (by decide) rfl rfl
      (by decide) (by decide) (by decide)).1⟩

/-- C2: a detail with exactly two inventory-array fields of one element
each yields exactly two billing records, and each record inherits the
parent detail's resource id, resource name, the entry's spending type,
and a resource type of `detail.type` falling back to the spending
type. -/
theorem C2_two_inventories_two_records (ctx : NormCtx)
    (spendingType : String) (dateStart dateEnd : Int)
    (spSpending : Option ℚ) (detail : Detail)
    (k1 k2 : String) (u1 u2 : InventoryUsage)
    (hinv : inventoryFields detail = [(k1, [u1]), (k2, [u2])]) :
    (normalizeDetail ctx spendingType dateStart dateEnd spSpending
        detail).length = 2 ∧
    ∀ r ∈ normalizeDetail ctx spendingType dateStart dateEnd spSpending
        detail,
      r.resource_id = detail.resourceUuid ∧
      r.resource_name = detail.resourceName ∧
      r.spending_type = spendingType ∧
      r.resource_type =
        (if detail.type = "" then spendingType else detail.type) := by
  have hrows : normalizeDetail ctx spendingType dateStart dateEnd spSpending
      detail =
      [normalizeInvRow ctx spendingType detail.resourceUuid
          detail.resourceName
          (if detail.type = "" then spendingType else detail.type)
          dateStart dateEnd k1 u1,
        normalizeInvRow ctx spendingType detail.resourceUuid
          detail.resourceName
          (if detail.type = "" then spendingType else detail.type)
          dateStart dateEnd k2 u2] := by
    simp [normalizeDetail, hinv]
  rw [hrows]
  refine ⟨rfl, ?_⟩
  intro r hr
  simp only [List.mem_cons, List.not_mem_nil, or_false] at hr
  rcases hr with h | h <;> subst h <;> simp [normalizeInvRow]

/-- C2 witness: the fixture detail with `cpuInventory` and
`sizeInventory` arrays (one element each) produces exactly two records
inheriting its identifiers. -/
theorem C2_two_inventories_witness :
    (normalizeDetail wCtx "VM" 0 86399999 (some 9) wDetail).length = 2 ∧
    ∀ r ∈ normalizeDetail wCtx "VM" 0 86399999 (some 9) wDetail,
      r.resource_id = wDetail.resourceUuid ∧
      r.resource_name = wDetail.resourceName ∧
      r.spending_type = "VM" ∧
      r.resource_type = (if wDetail.type = "" then "VM" else wDetail.type) :=
  C2_two_inventories_two_records wCtx "VM" 0 86399999 (some 9) wDetail
    "cpuInventory" "sizeInventory" wInv ⟨none, none, some 1, some 5, none⟩
    rfl

/-- Every row the per-detail normalizer emits is stamped with the run's
billing date. -/
theorem billing_date_of_normalizeDetail (ctx : NormCtx) (st : String)
    (ds de : Int) (ss : Option ℚ) (detail : Detail) (r : BillingRow)
    (hr : r ∈ normalizeDetail ctx st ds de ss detail) :
    r.billing_date = ctx.billingDate := by
  unfold normalizeDetail at hr
  by_cases h : (inventoryFields detail).isEmpty
  · simp only [h, if_true, List.mem_singleton] at hr
    subst hr; rfl
  · simp only [h, if_false] at hr
    rcases List.mem_flatMap.mp hr with ⟨kv, _, hmem⟩
    rcases List.mem_map.mp hmem with ⟨u, _, hru⟩
    subst hru; rfl

/-- Every row in a normalized batch is stamped with the run's billing
date. -/
theorem billing_date_of_normalizeSpending (ctx : NormCtx)
    (sp : List SpendingEntry) (r : BillingRow)
    (hr : r ∈ normalizeSpending ctx sp) :
    r.billing_date = ctx.billingDate := by
  simp only [normalizeSpending, normalizeEntry, List.mem_flatMap] at hr
  obtain ⟨e, _, d, _, hrd⟩ := hr
  exact billing_date_of_normalizeDetail ctx e.spendingType _ _ e.spending d
    r hrd

/-- Deleting a date's rows distributes over concatenation. -/
theorem deleteRowsForDate_append (a b : List BillingRow) (d : String) :
    deleteRowsForDate (a ++ b) d =
      deleteRowsForDate a d ++ deleteRowsForDate b d :=
  List.filter_append ..

/-- Deleting a date's rows twice is the same as once. -/
theorem deleteRowsForDate_idem (t : List BillingRow) (d : String) :
    deleteRowsForDate (deleteRowsForDate t d) d = deleteRowsForDate t d := by
  induction t with
  | nil => rfl
  | cons r t ih =>
    by_cases h : r.billing_date = d <;>
      simp [deleteRowsForDate, h] at ih ⊢ <;> exact ih

/-- Deleting the target date from a batch entirely dated that way leaves
nothing. -/
theorem deleteRowsForDate_all_dated (B : List BillingRow) (d : String)
    (h : ∀ r ∈ B, r.billing_date = d) : deleteRowsForDate B d = [] := by
  induction B with
  | nil => rfl
  | cons r B ih =>
    have hr := h r (List.mem_cons_self ..)
    simp only [deleteRowsForDate, List.filter_cons, hr]
    simpa [deleteRowsForDate] using
      ih (fun x hx => h x (List.mem_cons_of_mem _ hx))

/-- Selecting the target date from a batch entirely dated that way keeps
everything. -/
theorem filter_date_all_dated (B : List BillingRow) (d : String)
    (h : ∀ r ∈ B, r.billing_date = d) :
    B.filter (fun r => r.billing_date == d) = B := by
  induction B with
  | nil => rfl
  | cons r B ih =>
    have hr := h r (List.mem_cons_self ..)
    simp only [List.filter_cons, hr, beq_self_eq_true, if_true]
    rw [ih (fun x hx => h x (List.mem_cons_of_mem _ hx))]

/-- Selecting the target date after deleting it yields nothing. -/
theorem filter_date_after_delete (t : List BillingRow) (d : String) :
    (deleteRowsForDate t d).filter (fun r => r.billing_date == d) = [] := by
  induction t with
  | nil => rfl
  | cons r t ih =>
    by_cases h : r.billing_date = d <;>
      simp [deleteRowsForDate, List.filter_cons, h] at ih ⊢ <;> exact ih

/-- C1: with the upstream response fixed, running the per-date pipeline
twice leaves the same destination table as running it once (the second
run fully supersedes the first), each run reports `{status := "ok"}`,
and when the batch is non-empty the final table holds exactly the one
normalized batch as the rows of that date — no duplication. -/
theorem C1_replace_by_date_idempotent (ctx : NormCtx)
    (sp : List SpendingEntry) (table : List BillingRow) :
    (collectStep true ctx sp (collectStep true ctx sp table).1).1 =
      (collectStep true ctx sp table).1 ∧
    (collectStep true ctx sp table).2.2 =
      { status := "ok", date := ctx.billingDate } ∧
    (normalizeSpending ctx sp ≠ [] →
      ((collectStep true ctx sp (collectStep true ctx sp table).1).1.filter
          (fun r => r.billing_date == ctx.billingDate)) =
        normalizeSpending ctx sp) := by
  have hall : ∀ r ∈ normalizeSpending ctx sp, r.billing_date =
      ctx.billingDate :=
    fun r hr => billing_date_of_normalizeSpending ctx sp r hr
  by_cases hB : (normalizeSpending ctx sp).isEmpty
  · have hBnil : normalizeSpending ctx sp = [] := by
      simpa [List.isEmpty_iff] using hB
    refine ⟨?_, ?_, fun hne => absurd hBnil hne⟩ <;>
      simp [collectStep, hB]
  · have h1 : (collectStep true ctx sp table).1 =
        deleteRowsForDate table ctx.billingDate ++ normalizeSpending ctx sp := by
      simp [collectStep, hB, replaceRowsForDate]
    have h2 : (collectStep true ctx sp (collectStep true ctx sp table).1).1 =
        deleteRowsForDate (collectStep true ctx sp table).1 ctx.billingDate ++
          normalizeSpending ctx sp := by
      simp [collectStep, hB, replaceRowsForDate]
    refine ⟨?_, by simp [collectStep, hB, replaceRowsForDate], ?_⟩
    · rw [h2, h1, deleteRowsForDate_append, deleteRowsForDate_idem,
        deleteRowsForDate_all_dated _ _ hall, List.append_nil]
    · intro _
      rw [h2, h1, deleteRowsForDate_append, deleteRowsForDate_idem,
        deleteRowsForDate_all_dated _ _ hall, List.append_nil,
        List.filter_append, filter_date_after_delete,
        filter_date_all_dated _ _ hall, List.nil_append]

/-- C1 witness: the fixture payload against an empty table — the second
run's table equals the first's, and its rows of the date are exactly the
normalized batch. -/
theorem C1_replace_by_date_witness :
    (collectStep true wCtx wSpending (collectStep true wCtx wSpending []).1).1 =
      (collectStep true wCtx wSpending []).1 ∧
    ((collectStep true wCtx wSpending
          (collectStep true wCtx wSpending []).1).1.filter
        (fun r => r.billing_date == wCtx.billingDate)) =
      normalizeSpending wCtx wSpending :=
  ⟨(C1_replace_by_date_idempotent wCtx wSpending []).1,
    (C1_replace_by_date_idempotent wCtx wSpending []).2.2 (by decide)⟩

/-- A payload whose entries all lack details normalizes to no rows. -/
theorem normalizeSpending_nil_of_no_details (ctx : NormCtx)
    (sp : List SpendingEntry) (h : ∀ e ∈ sp, e.details = []) :
    normalizeSpending ctx sp = [] := by
  induction sp with
  | nil => rfl
  | cons e sp ih =>
    have he := h e (List.mem_cons_self ..)
    simp [normalizeSpending, normalizeEntry, he] at ih ⊢
    exact ih (fun x hx => h x (List.mem_cons_of_mem _ hx))

/-- C10: when the upstream payload yields zero normalized records (every
entry has no details — in particular an empty or absent spending array),
the run performs neither the delete nor the insert, leaves the
destination table untouched, and still returns `{status := "ok",
date}`. -/
theorem C10_empty_batch_no_effect (deleteOk : Bool) (ctx : NormCtx)
    (sp : List SpendingEntry) (table : List BillingRow)
    (h : ∀ e ∈ sp, e.details = []) :
    collectStep deleteOk ctx sp table =
      (table, [], { status := "ok", date := ctx.billingDate }) := by
  simp [collectStep, normalizeSpending_nil_of_no_details ctx sp h]

/-- C10 witness: an entry with no details leaves the pre-existing row in
place, logs no warehouse action, and reports success. -/
theorem C10_empty_batch_witness :
    collectStep true wCtx noDetailSpending [oldRow] =
      ([oldRow], [], { status := "ok", date := wCtx.billingDate }) :=
  C10_empty_batch_no_effect true wCtx noDetailSpending [oldRow]
    (by simp [noDetailSpending])

/-- The retry loop never reports more attempts than the iterations it
was given fuel for, past the attempts already made. -/
theorem attemptsOf_insertGo_le (oracle : Nat → AttemptResult)
    (mr : Nat) : ∀ fuel attempt le,
    attemptsOf (insertGo oracle mr fuel attempt le) ≤ attempt + fuel := by
  intro fuel
  induction fuel with
  | zero => intro attempt le; simp [insertGo, attemptsOf]
  | succ f ih =>
    intro attempt le
    unfold insertGo
    cases h : oracle (attempt + 1) with
    | okNoErrors => simp only [h, attemptsOf]; omega
    | rowErrors d =>
      simp only [h]
      by_cases hge : attempt + 1 ≥ mr
      · simp only [if_pos hge, attemptsOf]; omega
      · simp only [if_neg hge]
        exact le_trans (ih (attempt + 1) _) (by omega)
    | thrownErr m =>
      simp only [h]
      by_cases ht : isTransientMsg m
      · simp only [ht, if_true]
        by_cases hge : attempt + 1 ≥ mr
        · simp only [if_pos hge, attemptsOf]; omega
        · simp only [if_neg hge]
          exact le_trans (ih (attempt + 1) _) (by omega)
      · simp only [ht, Bool.false_eq_true, if_false, attemptsOf]; omega

/-- C6: the bulk insert makes at most 3 attempts; it returns as soon as
an attempt reports no row-level errors; a first-attempt row-level
rejection (or transient thrown error) is retried and a clean second
attempt succeeds with 2 attempts; a non-transient thrown error is
re-raised immediately after 1 attempt; and three row-level rejections
raise the last observed error after exactly 3 attempts. -/
theorem C6_insert_retry_policy (oracle : Nat → AttemptResult) :
    attemptsOf (insertRowsToBQ oracle) ≤ 3 ∧
    (oracle 1 = .okNoErrors → insertRowsToBQ oracle = .success 1) ∧
    (∀ d, oracle 1 = .rowErrors d → oracle 2 = .okNoErrors →
      insertRowsToBQ oracle = .success 2) ∧
    (∀ m, oracle 1 = .thrownErr m → isTransientMsg m = true →
      oracle 2 = .okNoErrors → insertRowsToBQ oracle = .success 2) ∧
    (∀ m, oracle 1 = .thrownErr m → isTransientMsg m = false →
      insertRowsToBQ oracle = .raised (some m) 1) ∧
    (∀ d1 d2 d3, oracle 1 = .rowErrors d1 → oracle 2 = .rowErrors d2 →
      oracle 3 = .rowErrors d3 →
      insertRowsToBQ oracle = .raised (some (rowErrMsg d3)) 3) := by
  refine ⟨attemptsOf_insertGo_le oracle 3 3 0 none, ?_, ?_, ?_, ?_, ?_⟩
  · intro h1
    unfold insertRowsToBQ insertGo
    simp [h1]
  · intro d h1 h2
    unfold insertRowsToBQ insertGo
    simp only [h1, show ¬(1 ≥ 3) by omega, if_false]
    unfold insertGo
    simp [h2]
  · intro m h1 ht h2
    unfold insertRowsToBQ insertGo
    simp only [h1, ht, if_true, show ¬(1 ≥ 3) by omega, if_false]
    unfold insertGo
    simp [h2]
  · intro m h1 ht
    unfold insertRowsToBQ insertGo
    simp [h1, ht]
  · intro d1 d2 d3 h1 h2 h3
    unfold insertRowsToBQ insertGo
    simp only [h1, show ¬(1 ≥ 3) by omega, if_false]
    unfold insertGo
    simp only [h2, show ¬(2 ≥ 3) by omega, if_false]
    unfold insertGo
    simp [h3]

/-- C6 witness: an oracle whose first attempt is rejected with row
errors and whose second attempt is clean makes the insert succeed with
exactly 2 of the at-most-3 attempts. -/
theorem C6_insert_retry_witness :
    attemptsOf (insertRowsToBQ
        (fun n => if n = 1 then .rowErrors "bad row" else .okNoErrors)) ≤ 3 ∧
    insertRowsToBQ
        (fun n => if n = 1 then .rowErrors "bad row" else .okNoErrors) =
      .success 2 :=
  ⟨(C6_insert_retry_policy _).1,
    (C6_insert_retry_policy _).2.2.1 "bad row" rfl rfl⟩

/-- C7 counterexample: with a session-login credential set, a complete
configuration, and an account uuid present, a login HTTP error — and
likewise a login response with no parseable token — does NOT make the
run fail: the resolver proceeds with HTTP Basic authentication and an
empty session token, contradicting the claim that it "fails with an
error" in those cases. -/
theorem C7_login_failure_not_fatal :
    resolveAuth sessionCfg .httpError =
      .ok { headers := .basic "admin" "pw", accountUuid := "acct",
            sessionToken := "" } ∧
    resolveAuth sessionCfg (.okBody none none) =
      .ok { headers := .basic "admin" "pw", accountUuid := "acct",
            sessionToken := "" } :=
  ⟨rfl, rfl⟩

/-- C7 amended: the resolver throws the missing-properties error when no
credential set is configured; in session-login mode, a login HTTP error
or an unparseable login response is logged and swallowed — the run
falls back to HTTP Basic authentication and succeeds (given the account
uuid is configured), rather than failing. -/
theorem C7_auth_failure_modes (cfg : Config) (http : LoginHttp) :
    (cfg.apiKey = "" → (cfg.accessKey = "" ∨ cfg.accessSecret = "") →
      (cfg.username = "" ∨ cfg.password = "") →
      resolveAuth cfg http = .error missingPropsMsg) ∧
    (cfg.username ≠ "" → cfg.password ≠ "" → cfg.apiKey = "" →
      (cfg.accessKey = "" ∨ cfg.accessSecret = "") →
      cfg.apiUrl ≠ "" → cfg.projectId ≠ "" → cfg.datasetId ≠ "" →
      cfg.tableId ≠ "" → cfg.accountUuid ≠ "" →
      (http = .httpError ∨ http = .okBody none none) →
      resolveAuth cfg http =
        .ok { headers := .basic cfg.username cfg.password,
              accountUuid := cfg.accountUuid, sessionToken := "" }) := by
  constructor
  · intro hk hak hup
    rcases hak with h1 | h1 <;> rcases hup with h2 | h2 <;>
      simp [resolveAuth, hk, h1, h2]
  · intro hu hp hk hak hurl hproj hds htbl hacct hhttp
    have hlogin : loginZstack http = none ∨
        loginZstack http = some ⟨none, none, none⟩ := by
      rcases hhttp with h | h <;> subst h
      · exact Or.inl rfl
      · exact Or.inr rfl
    rcases hak with h1 | h1 <;> rcases hlogin with h2 | h2 <;>
      simp [resolveAuth, hu, hp, hk, h1, h2, hurl, hproj, hds, htbl, hacct,
        strOr, strOr2]

/-- C7 witness for the amended statement: missing credentials throw the
missing-properties error, and a session login hitting an HTTP error
resolves to Basic authentication. -/
theorem C7_auth_failure_witness :
    resolveAuth noCredCfg .httpError = .error missingPropsMsg ∧
    resolveAuth sessionCfg .httpError =
      .ok { headers := .basic "admin" "pw", accountUuid := "acct",
            sessionToken := "" } :=
  ⟨(C7_auth_failure_modes noCredCfg .httpError).1 rfl (Or.inl rfl)
      (Or.inl rfl),
    (C7_auth_failure_modes sessionCfg .httpError).2 (by decide) (by decide)
      rfl (Or.inl rfl) (by decide) (by decide) (by decide) (by decide)
      (by decide) (Or.inl rfl)⟩

/-- A day's outcome entry is always labelled with that day's date
string, whether the run succeeded or threw. -/
theorem dayOutcome_date (runner : String → Except String String)
    (s : String) : (dayOutcome runner s).date = s := by
  unfold dayOutcome
  cases runner s <;> rfl

/-- C8: `collectBillingForMonth` on `"2025-02"` produces one outcome per
calendar day — 28 entries in day order, entry `i` being the caught
outcome of running the per-date pipeline on day `i + 1` — for every
runner; and with a runner that throws on day 15, all 28 entries are
still produced, day 15's marked failed and every other day's marked
successful. -/
theorem C8_month_resilience :
    (∀ runner : String → Except String String,
      ∃ rs, collectBillingForMonth runner "2025-02" = .ok rs ∧
        rs.length = 28 ∧
        ∀ i (h : i < rs.length),
          rs[i] = dayOutcome runner (monthDateStr 2025 2 (i + 1))) ∧
    (∃ rs, collectBillingForMonth runner15 "2025-02" = .ok rs ∧
      rs.length = 28 ∧
      rs.map (fun o => o.date) = feb2025Dates ∧
      rs.map (fun o => o.ok) =
        (List.range 28).map (fun i => i != 14)) := by
  have hdm : daysInMonth 2025 2 = 28 := by decide
  have collectEq : ∀ runner : String → Except String String,
      collectBillingForMonth runner "2025-02" =
        .ok ((List.range 28).map
          (fun i => dayOutcome runner (monthDateStr 2025 2 (i + 1)))) := by
    intro runner
    unfold collectBillingForMonth
    rw [show parseYearMonth "2025-02" = some (2025, 2) from by decide]
    simp [hdm]
  constructor
  · intro runner
    refine ⟨_, collectEq runner, by simp, ?_⟩
    intro i h
    simp only [List.getElem_map, List.getElem_range]
  · refine ⟨_, collectEq runner15, by simp, ?_, by decide⟩
    simp [List.map_map, feb2025Dates, Function.comp, dayOutcome_date]

/-- C8 witness: a runner that always succeeds yields 28 outcome
entries. -/
theorem C8_month_witness :
    ∃ rs, collectBillingForMonth (fun _ => .ok "done") "2025-02" = .ok rs ∧
      rs.length = 28 := by
  obtain ⟨rs, h1, h2, _⟩ := C8_month_resilience.1 (fun _ => .ok "done")
  exact ⟨rs, h1, h2⟩

/-- C9: for every valid calendar date, the billing window sent upstream
starts at 00:00:00.000 and ends at 23:59:59.999 of that day in UTC+7 —
the start is exactly a Jakarta midnight (25,200,000 ms behind a multiple
of 86,400,000), the end is 86,399,999 ms into that day, the bounds are
integers by construction, and start < end with a difference of exactly
86,399,999 ms. -/
theorem C9_billing_window (y m d : Nat) (hy : 1970 ≤ y) (hm1 : 1 ≤ m)
    (hm2 : m ≤ 12) (hd1 : 1 ≤ d) (hd2 : d ≤ daysInMonth y m) :
    dateEndMs y m d - dateStartMs y m d = 86399999 ∧
    dateStartMs y m d < dateEndMs y m d ∧
    (dateStartMs y m d + 25200000) % 86400000 = 0 ∧
    (dateEndMs y m d + 25200000) % 86400000 = 86399999 := by
  simp only [dateStartMs, dateEndMs, parseJakartaMs]
  omega

/-- C9 witness: the window of 2025-01-01 in Asia/Jakarta. -/
theorem C9_billing_window_witness :
    dateEndMs 2025 1 1 - dateStartMs 2025 1 1 = 86399999 ∧
    dateStartMs 2025 1 1 < dateEndMs 2025 1 1 ∧
    (dateStartMs 2025 1 1 + 25200000) % 86400000 = 0 :=
  ⟨(C9_billing_window 2025 1 1 (by decide) (by decide) (by decide)
      (by decide) (by decide)).1,
    (C9_billing_window 2025 1 1 (by decide) (by decide) (by decide)
      (by decide) (by decide)).2.1,
    (C9_billing_window 2025 1 1 (by decide) (by decide) (by decide)
      (by decide) (by decide)).2.2.1⟩

end ZB
